import Mathlib

/-!
Shallow embedding of the browser-based exam-proctoring client
(`useProctoringWebSocket.ts`, `StudentExam.tsx`, `violationLogger.ts`,
`aiDetection.ts`).  Pure fragments of the TypeScript source are translated
into executable Lean definitions; stateful React code is translated into
explicit state-passing functions over a record of the component's state
variables (each `setX(prev => f prev)` functional update becomes a field
update on that record).  Browser/React re-subscription plumbing is
abstracted: each event handler observes the then-current state.
-/

namespace Proctoring

/-! ## Severity classification (`violationLogger.ts`, `determineSeverity`) -/

inductive Severity where
  | low
  | medium
  | high
  deriving DecidableEq, Repr

/-- Embeds `ViolationLogger.determineSeverity` : a `switch` on the
violation-type string. -/
def determineSeverity (type : String) : Severity :=
  if type = "phone" ∨ type = "multiple_person" then .high
  else if type = "object" ∨ type = "no_person" then .medium
  else if type = "looking_away" ∨ type = "audio_noise" then .low
  else .low

/-! ## Streaming Client state (`useProctoringWebSocket.ts`) -/

/-- The state variables of the `useProctoringWebSocket` hook that the
reconnect logic reads and writes (`isConnected`, `reconnectAttempts`). -/
structure WsState where
  isConnected : Bool
  reconnectAttempts : Nat
  deriving DecidableEq, Repr

/-- Initial hook state: `useState(false)`, `useState(0)`. -/
def initWsState : WsState := { isConnected := false, reconnectAttempts := 0 }

/-- `const maxReconnectAttempts = 50`. -/
def maxReconnectAttempts : Nat := 50

/-- The delay computed in `ws.onclose`:
`Math.min(1000 * Math.pow(2, reconnectAttempts), 30000)`. -/
def reconnectDelay (attempts : Nat) : Nat :=
  min (1000 * 2 ^ attempts) 30000

/-- Outcome of one firing of the `ws.onclose` handler. -/
structure CloseResult where
  state : WsState
  /-- `some d` iff `setTimeout(..., d)` scheduled a reconnect attempt. -/
  scheduledDelay : Option Nat
  /-- whether `toast.error('Unable to connect to proctoring service.')` ran. -/
  terminalNotice : Bool
  deriving DecidableEq, Repr

/-- Embeds `ws.onclose`: sets `isConnected` to `false`; if `enabled` and the
attempt counter is below the cap, schedules a reconnect after
`reconnectDelay`; otherwise, if the counter has reached the cap, emits the
terminal service-unavailable notification and schedules nothing. -/
def wsOnClose (enabled : Bool) (s : WsState) : CloseResult :=
  let s1 : WsState := { s with isConnected := false }
  if enabled ∧ s.reconnectAttempts < maxReconnectAttempts then
    { state := s1
      scheduledDelay := some (reconnectDelay s.reconnectAttempts)
      terminalNotice := false }
  else if s.reconnectAttempts ≥ maxReconnectAttempts then
    { state := s1, scheduledDelay := none, terminalNotice := true }
  else
    { state := s1, scheduledDelay := none, terminalNotice := false }

/-- Embeds the body of the scheduled `setTimeout` callback:
`setReconnectAttempts(prev => prev + 1); connect();`. -/
def reconnectTimeoutFire (s : WsState) : WsState :=
  { s with reconnectAttempts := s.reconnectAttempts + 1 }

/-- Embeds `ws.onopen`: `setIsConnected(true); setReconnectAttempts(0)`. -/
def wsOnOpen (s : WsState) : WsState :=
  { s with isConnected := true, reconnectAttempts := 0 }

/-- State after `k` consecutive unexpected closes starting from `s` (no
intervening successful open): each close runs `wsOnClose`, and when a
reconnect was scheduled its timeout callback then fires (incrementing the
attempt counter before the next `connect()`). -/
def afterClosesFrom (s : WsState) (k : Nat) : WsState :=
  match k with
  | 0 => s
  | k + 1 =>
    let r := wsOnClose true (afterClosesFrom s k)
    match r.scheduledDelay with
    | some _ => reconnectTimeoutFire r.state
    | none => r.state

/-! ## Connection URL (`connect`) -/

/-- Embeds the template literal in `connect`:
``` `${WS_URL}/api/ws/proctoring/${sessionId}` ```. -/
def connectURL (wsBase sessionId : String) : String :=
  wsBase ++ "/api/ws/proctoring/" ++ sessionId

/-- Modelled from the spec (§6, for comparison only): the path the spec
claims, `/ws/proctoring/{sessionId}` under the configured endpoint. -/
def specConnectURL (wsBase sessionId : String) : String :=
  wsBase ++ "/ws/proctoring/" ++ sessionId

/-! ## JavaScript truthiness helpers

`a || b` in the source falls through on `undefined`, `null` and the empty
string; `x ? y : z` treats `0` and the empty string as false. -/

/-- A JS string value is truthy iff it is present and non-empty. -/
def jsTruthy (o : Option String) : Option String :=
  match o with
  | some s => if s.isEmpty then none else some s
  | none => none

/-- A JS numeric value is truthy iff it is present and non-zero. -/
def jsTruthyNum (o : Option Nat) : Option Nat :=
  match o with
  | some 0 => none
  | some n => some n
  | none => none

/-- `a || dflt` on an optional string. -/
def jsOrStr (a : Option String) (dflt : String) : String :=
  match jsTruthy a with
  | some s => s
  | none => dflt

/-- `a || b || dflt` on two optional strings. -/
def jsOr2 (a b : Option String) (dflt : String) : String :=
  match jsTruthy a with
  | some s => s
  | none => jsOrStr b dflt

/-- `.replace(/_/g, ' ')` on a character list: every underscore becomes a
space. -/
def underscoresToSpaces : List Char → List Char
  | [] => []
  | c :: cs => (if c = '_' then ' ' else c) :: underscoresToSpaces cs

/-- `type.replace(/_/g, ' ')`. -/
def replaceUnderscores (s : String) : String :=
  String.mk (underscoresToSpaces s.data)

/-! ## Send primitives (`sendFrame`, `sendAudioLevel`, `sendBrowserActivity`) -/

/-- `WebSocket.readyState` values. -/
inductive ReadyState where
  | connecting
  | opened
  | closing
  | closed
  deriving DecidableEq, Repr

/-- The session context the hook closes over (`examId`, `studentId`, ...). -/
structure SessionContext where
  examId : String
  studentId : String
  studentName : String
  subjectCode : String
  subjectName : String
  calibratedPitch : Int
  calibratedYaw : Int
  deriving DecidableEq, Repr

/-- An outbound JSON message, one constructor per payload shape built by the
send functions (field order follows the object literals in the source). -/
inductive OutMessage where
  | frame (frameBase64 : String) (calibratedPitch calibratedYaw : Int)
      (examId studentId studentName subjectCode subjectName : String)
      (audioLevel : Option Nat)
  | audio (audioLevel : Nat)
      (examId studentId studentName subjectCode subjectName : String)
  | browserActivity (violationType message : String)
      (examId studentId studentName subjectCode subjectName : String)
  | ping
  deriving DecidableEq, Repr

/-- `wsRef.current` (`none` = no socket created) together with the list of
messages transmitted so far over the connection. -/
structure ClientState where
  ws : Option ReadyState
  transmitted : List OutMessage
  deriving DecidableEq, Repr

/-- `wsRef.current?.readyState === WebSocket.OPEN`. -/
def wsIsOpen (st : ClientState) : Bool :=
  st.ws = some ReadyState.opened

/-- Embeds `sendFrame`: builds the frame payload and transmits it only when
the socket exists and is OPEN; otherwise logs and returns unchanged. -/
def sendFrame (st : ClientState) (ctx : SessionContext) (frameBase64 : String)
    (audioLevel : Option Nat) (overrideStudentName : Option String) :
    ClientState :=
  let currentStudentName := jsOrStr overrideStudentName ctx.studentName
  if wsIsOpen st then
    { st with transmitted := st.transmitted ++
        [OutMessage.frame frameBase64 ctx.calibratedPitch ctx.calibratedYaw
          ctx.examId ctx.studentId currentStudentName ctx.subjectCode
          ctx.subjectName audioLevel] }
  else st

/-- Embeds `sendAudioLevel`. -/
def sendAudioLevel (st : ClientState) (ctx : SessionContext)
    (audioLevel : Nat) : ClientState :=
  if wsIsOpen st then
    { st with transmitted := st.transmitted ++
        [OutMessage.audio audioLevel ctx.examId ctx.studentId ctx.studentName
          ctx.subjectCode ctx.subjectName] }
  else st

/-- Embeds `sendBrowserActivity`. -/
def sendBrowserActivity (st : ClientState) (ctx : SessionContext)
    (violationType message : String) : ClientState :=
  if wsIsOpen st then
    { st with transmitted := st.transmitted ++
        [OutMessage.browserActivity violationType message ctx.examId
          ctx.studentId ctx.studentName ctx.subjectCode ctx.subjectName] }
  else st

/-! ## Inbound message handling (`ws.onmessage`) -/

/-- A violation object as carried by detection-service messages
(`ViolationData` in the source). -/
structure ViolationData where
  vtype : String
  severity : String
  message : String
  confidence : Option Nat
  timestamp : String
  snapshot_base64 : Option String
  deriving DecidableEq, Repr

/-- A parsed inbound message, one constructor per `data.type` discriminator
handled by `ws.onmessage`. -/
inductive InMessage where
  | detectionResult (violations : List ViolationData)
      (snapshot_base64 : Option String)
  | violation (v : ViolationData)
  | audioLevelMsg
  | pong
  | unknown (t : String)
  deriving Repr

/-- Embeds the violation-delivery behaviour of `ws.onmessage`, returning the
violations handed to `onViolationRef.current` in order.  For a
`detection_result` each violation is delivered with its `timestamp`
replaced by `new Date().toISOString()` (the parameter `now`) and the
result's `snapshot_base64` attached; a standalone `violation` message
delivers `data.data` unmodified; other message types deliver nothing. -/
def wsOnMessage (now : String) (msg : InMessage) : List ViolationData :=
  match msg with
  | .detectionResult violations snap =>
    if violations.length > 0 then
      violations.map (fun v =>
        { v with timestamp := now, snapshot_base64 := snap })
    else []
  | .violation v => [v]
  | .audioLevelMsg => []
  | .pong => []
  | .unknown _ => []

/-! ## Sampler tick (`startAIMonitoring` interval body, `StudentExam.tsx`) -/

/-- The dimensions the video element reports at capture time. -/
structure VideoSource where
  videoWidth : Nat
  videoHeight : Nat
  deriving DecidableEq, Repr

/-- Embeds one firing of the 2-second AI-monitoring interval: skips when
there is no video element or stream, skips (returning normally, sending
nothing) when the video reports zero width or height, and otherwise encodes
a snapshot and calls `sendFrame` then `sendAudioLevel`.  `encode` stands
for `canvas.toDataURL('image/jpeg', 0.8)` on the drawn frame. -/
def monitoringTick (video : Option VideoSource) (hasStream : Bool)
    (encode : VideoSource → String) (audioLevel : Nat)
    (studentNameRef : String) (ctx : SessionContext) (st : ClientState) :
    ClientState :=
  match video with
  | none => st
  | some v =>
    if !hasStream then st
    else if v.videoWidth = 0 ∨ v.videoHeight = 0 then st
    else
      let snapshot := encode v
      let st1 := sendFrame st ctx snapshot (some audioLevel)
        (some studentNameRef)
      sendAudioLevel st1 ctx audioLevel

/-! ## Exam-page state and violation handlers (`StudentExam.tsx`) -/

/-- The `StudentExam` component's monitoring-related state variables. -/
structure ExamState where
  violationCount : Nat
  recentWarnings : List String
  tabSwitchCount : Nat
  copyPasteCount : Nat
  windowFocused : Bool
  deriving DecidableEq, Repr

/-- Initial component state (`useState(0)`, `useState([])`, ...). -/
def initExamState : ExamState :=
  { violationCount := 0, recentWarnings := [], tabSwitchCount := 0
    copyPasteCount := 0, windowFocused := true }

/-- Embeds the `onViolation` callback passed to `useProctoringWebSocket`:
increments `violationCount`, formats the message
(`violation.message || violation.type.replace(/_/g, ' ')`), and keeps the
last three warnings (`[message, ...prev].slice(0, 3)`). -/
def onViolation (violation : ViolationData) (s : ExamState) : ExamState :=
  let message :=
    jsOrStr (some violation.message) (replaceUnderscores violation.vtype)
  { s with
    violationCount := s.violationCount + 1
    recentWarnings := (message :: s.recentWarnings).take 3 }

/-- Embeds `handleVisibilityChange`: when the document becomes hidden the
tab-switch counter is always incremented, and the `tab_switch`
browser-activity message is sent to the backend only when `wsConnected`;
`windowFocused` is updated in every case. -/
def handleVisibilityChange (hidden wsConnected : Bool)
    (ctx : SessionContext) (s : ExamState) (st : ClientState) :
    ExamState × ClientState :=
  if hidden then
    let s1 := { s with tabSwitchCount := s.tabSwitchCount + 1 }
    let st1 :=
      if wsConnected then
        sendBrowserActivity st ctx "tab_switch"
          "Tab switched - student navigated away from exam page"
      else st
    ({ s1 with windowFocused := !hidden }, st1)
  else
    ({ s with windowFocused := !hidden }, st)

/-- `eventType.charAt(0).toUpperCase() + eventType.slice(1)`. -/
def capitalizeFirst (s : String) : String :=
  match s.data with
  | [] => ""
  | c :: cs => String.mk (c.toUpper :: cs)

/-- Embeds `handleCopyPaste`: always increments the copy/paste counter;
sends a `copy_paste` browser-activity message only when `wsConnected`. -/
def handleCopyPaste (isCopy wsConnected : Bool) (ctx : SessionContext)
    (s : ExamState) (st : ClientState) : ExamState × ClientState :=
  let eventType := if isCopy then "copy" else "paste"
  let s1 := { s with copyPasteCount := s.copyPasteCount + 1 }
  let st1 :=
    if wsConnected then
      sendBrowserActivity st ctx "copy_paste"
        (capitalizeFirst eventType ++ " operation attempted")
    else st
  (s1, st1)

/-! ## CSV export (`aiDetection.ts`, `PDFGenerator.exportToCSV`) -/

/-- The optional `details` payload of a stored violation; the source reads
snake_case and camelCase variants of each field.  `confidence`, a float in
`0..1` in the source, is modelled opaquely as a `Nat` rendered by a
formatting parameter. -/
structure CsvDetails where
  student_id : Option String
  studentId : Option String
  student_name : Option String
  studentName : Option String
  subject_name : Option String
  subjectName : Option String
  subject_code : Option String
  subjectCode : Option String
  message : Option String
  confidence : Option Nat
  deriving DecidableEq, Repr

/-- `ViolationData` as declared in `aiDetection.ts` (stored violations). -/
structure CsvViolation where
  id : String
  violation_type : String
  severity : String
  timestamp : String
  image_url : Option String
  details : Option CsvDetails
  deriving DecidableEq, Repr

/-- The `headers` array of `exportToCSV`. -/
def csvHeaders : List String :=
  ["Timestamp", "Student ID", "Student Name", "Subject Name",
   "Subject Code", "Violation Type", "Severity", "Details", "Confidence",
   "Evidence Image URL", "Has Evidence"]

/-- One row of cells, before quoting: the array literal returned by the
`violations.map` callback.  `fmtTime` stands for
`new Date(...).toLocaleString()` and `fmtConf` for
`(confidence * 100).toFixed(1) + '%'`, both environment-dependent
renderings. -/
def csvRowCells (fmtTime : String → String) (fmtConf : Nat → String)
    (v : CsvViolation) : List String :=
  let studentId := jsOr2 (v.details.bind (·.student_id))
    (v.details.bind (·.studentId)) "ID Not Available"
  let studentName := jsOr2 (v.details.bind (·.student_name))
    (v.details.bind (·.studentName)) "Name Not Available"
  let subjectName := jsOr2 (v.details.bind (·.subject_name))
    (v.details.bind (·.subjectName)) "Subject Not Available"
  let subjectCode := jsOr2 (v.details.bind (·.subject_code))
    (v.details.bind (·.subjectCode)) "Code Not Available"
  [fmtTime v.timestamp,
   studentId,
   studentName,
   subjectName,
   subjectCode,
   replaceUnderscores v.violation_type,
   v.severity,
   jsOrStr (v.details.bind (·.message)) "No details available",
   (match jsTruthyNum (v.details.bind (·.confidence)) with
    | some c => fmtConf c
    | none => "N/A"),
   jsOrStr v.image_url "No evidence captured",
   if (jsTruthy v.image_url).isSome then "Yes" else "No"]

/-- `cell => `"${String(cell).replace(/"/g, '""')}"``. -/
def csvCell (s : String) : String :=
  "\"" ++ s.replace "\"" "\"\"" ++ "\""

/-- The array joined by `'\n'` in `exportToCSV`: the comma-joined header
followed by one comma-joined quoted row per violation, in input order. -/
def csvLines (fmtTime : String → String) (fmtConf : Nat → String)
    (violations : List CsvViolation) : List String :=
  String.intercalate "," csvHeaders ::
    violations.map (fun v =>
      String.intercalate "," ((csvRowCells fmtTime fmtConf v).map csvCell))

/-- Embeds `exportToCSV` (up to its `fmtTime`/`fmtConf` environment
renderings): `[headers.join(','), ...rows].join('\n')`. -/
def exportToCSV (fmtTime : String → String) (fmtConf : Nat → String)
    (violations : List CsvViolation) : String :=
  String.intercalate "\n" (csvLines fmtTime fmtConf violations)

end Proctoring

namespace Proctoring

/-! ## Basic lemmas about the reconnect machinery -/

lemma afterClosesFrom_attempts (s : WsState) (hs : s.reconnectAttempts = 0)
    (k : Nat) (hk : k ≤ maxReconnectAttempts) :
    (afterClosesFrom s k).reconnectAttempts = k := by
  induction k with
  | zero => simpa [afterClosesFrom] using hs
  | succ n ih =>
    have hn : n ≤ maxReconnectAttempts := Nat.le_of_succ_le hk
    have hlt : n < maxReconnectAttempts := Nat.lt_of_succ_le hk
    simp only [afterClosesFrom, wsOnClose, ih hn, hlt, and_true, true_and]
    simp [reconnectTimeoutFire, hlt]

/-- Numeric rank of a severity, for comparing classifications. -/
def sevRank : Severity → Nat
  | .low => 0
  | .medium => 1
  | .high => 2

/-- A concrete session context used to instantiate universally quantified
theorems on concrete inputs. -/
def sampleCtx : SessionContext :=
  { examId := "exam1", studentId := "stud1", studentName := "Alice"
    subjectCode := "CS101", subjectName := "Computer Science"
    calibratedPitch := 2, calibratedYaw := -3 }

/-! ## Claim theorems -/

/-- C7: `determineSeverity` is a pure, total function of the violation type
alone: `phone` and `multiple_person` map to `high`, `object` and
`no_person` to `medium`, `looking_away` and `audio_noise` to `low`, and
every other type to `low`; presence-type violations rank strictly above
gaze/audio violations. -/
theorem C7_severity_pure :
    (determineSeverity "phone" = Severity.high ∧
     determineSeverity "multiple_person" = Severity.high ∧
     determineSeverity "object" = Severity.medium ∧
     determineSeverity "no_person" = Severity.medium ∧
     determineSeverity "looking_away" = Severity.low ∧
     determineSeverity "audio_noise" = Severity.low ∧
     sevRank (determineSeverity "multiple_person") >
       sevRank (determineSeverity "looking_away") ∧
     sevRank (determineSeverity "phone") >
       sevRank (determineSeverity "audio_noise")) ∧
    (∀ t : String,
      t ∉ ["phone", "multiple_person", "object", "no_person"] →
      determineSeverity t = Severity.low) := by
  refine ⟨by decide, fun t ht => ?_⟩
  simp only [List.mem_cons, List.mem_singleton, not_or] at ht
  obtain ⟨h1, h2, h3, h4, -⟩ := ht
  simp [determineSeverity, h1, h2, h3, h4]

/-- C7 witness: a type outside the six known cases falls to the `low`
default. -/
theorem C7_severity_pure_witness :
    determineSeverity "tab_switch" = Severity.low :=
  C7_severity_pure.2 "tab_switch" (by decide)

/-- C5 counterexample: for session id `s1` and base `wss://h`, `connect`
builds `wss://h/api/ws/proctoring/s1`, which differs from the
`/ws/proctoring/{sessionId}` path the claim states. -/
theorem C5_counterexample :
    connectURL "wss://h" "s1" = "wss://h/api/ws/proctoring/s1" ∧
    connectURL "wss://h" "s1" ≠ specConnectURL "wss://h" "s1" := by
  decide

/-- C5 (amended): for every session id, the Streaming Client connects at
exactly the path `/api/ws/proctoring/{sessionId}` under the configured
endpoint; the session id is recoverable from the URL (distinct session ids
yield distinct URLs under the same base). -/
theorem C5_amended_path :
    ∀ wsBase sessionId : String,
      connectURL wsBase sessionId =
        wsBase ++ "/api/ws/proctoring/" ++ sessionId ∧
      (connectURL wsBase sessionId).data =
        wsBase.data ++ "/api/ws/proctoring/".data ++ sessionId.data ∧
      ∀ otherId : String,
        connectURL wsBase sessionId = connectURL wsBase otherId →
        sessionId = otherId := by
  intro wsBase sessionId
  refine ⟨rfl, by simp [connectURL], fun otherId h => ?_⟩
  have hd := congrArg String.data h
  simp only [connectURL] at hd
  simp at hd
  exact String.ext hd

/-- C5 amended witness: evaluated at a concrete base and session id. -/
theorem C5_amended_path_witness :
    connectURL "wss://h" "s1" = "wss://h" ++ "/api/ws/proctoring/" ++ "s1" ∧
    "s1" = "s1" :=
  ⟨(C5_amended_path "wss://h" "s1").1,
   (C5_amended_path "wss://h" "s1").2.2 "s1" rfl⟩

/-- C4: when the socket is absent or its ready state is anything other
than OPEN, every send primitive returns normally, transmits nothing, and
leaves the client state (including the connection) unchanged. -/
theorem C4_send_noop_when_not_open :
    ∀ (st : ClientState) (ctx : SessionContext) (frameBase64 : String)
      (audioLevel : Option Nat) (overrideName : Option String) (lvl : Nat)
      (violationType message : String),
      st.ws ≠ some ReadyState.opened →
      sendFrame st ctx frameBase64 audioLevel overrideName = st ∧
      sendAudioLevel st ctx lvl = st ∧
      sendBrowserActivity st ctx violationType message = st := by
  intro st ctx frameBase64 audioLevel overrideName lvl violationType message h
  refine ⟨?_, ?_, ?_⟩ <;>
    simp [sendFrame, sendAudioLevel, sendBrowserActivity, wsIsOpen, h]

/-- C4 witness: concrete no-socket state (`Disconnected`, nothing ever
created): all three sends leave the state unchanged. -/
theorem C4_send_noop_when_not_open_witness :
    sendFrame ⟨none, []⟩ sampleCtx "frame" (some 5) none = ⟨none, []⟩ ∧
    sendAudioLevel ⟨none, []⟩ sampleCtx 7 = ⟨none, []⟩ ∧
    sendBrowserActivity ⟨none, []⟩ sampleCtx "tab_switch" "m" = ⟨none, []⟩ :=
  C4_send_noop_when_not_open ⟨none, []⟩ sampleCtx "frame" (some 5) none 7
    "tab_switch" "m" (by decide)

/-- C6: a sampler tick whose video source reports zero width or zero
height is skipped: the tick returns normally with the client state
unchanged, so no frame (or audio) message is sent that tick. -/
theorem C6_zero_dimension_skip :
    ∀ (v : VideoSource) (hasStream : Bool) (encode : VideoSource → String)
      (audioLevel : Nat) (nameRef : String) (ctx : SessionContext)
      (st : ClientState),
      v.videoWidth = 0 ∨ v.videoHeight = 0 →
      monitoringTick (some v) hasStream encode audioLevel nameRef ctx st =
        st ∧
      (monitoringTick (some v) hasStream encode audioLevel nameRef ctx
        st).transmitted = st.transmitted := by
  intro v hasStream encode audioLevel nameRef ctx st h
  have hm : monitoringTick (some v) hasStream encode audioLevel nameRef ctx
      st = st := by
    cases hasStream <;> simp [monitoringTick, h]
  exact ⟨hm, by rw [hm]⟩

/-- C6 witness: a ready stream whose video reports `640 × 0` sends nothing
on that tick. -/
theorem C6_zero_dimension_skip_witness :
    monitoringTick (some ⟨640, 0⟩) true (fun _ => "img") 9 "Alice" sampleCtx
      ⟨some ReadyState.opened, []⟩ = ⟨some ReadyState.opened, []⟩ :=
  (C6_zero_dimension_skip ⟨640, 0⟩ true (fun _ => "img") 9 "Alice" sampleCtx
    ⟨some ReadyState.opened, []⟩ (Or.inr rfl)).1

/-- C2: in a run of consecutive unexpected closes starting from the
initial state, the delay scheduled before retry attempt `k` is
`min(1000·2^k, 30000)` ms; concretely the first five delays are 1 s, 2 s,
4 s, 8 s and 16 s; and once the attempt counter reaches the bound of 50
the close handler schedules no further connect and emits the terminal
service-unavailable notification. -/
theorem C2_reconnect_backoff :
    (∀ k, k < maxReconnectAttempts →
      (wsOnClose true (afterClosesFrom initWsState k)).scheduledDelay =
        some (min (1000 * 2 ^ k) 30000)) ∧
    ([0, 1, 2, 3, 4].map (fun k =>
      (wsOnClose true (afterClosesFrom initWsState k)).scheduledDelay) =
      [some 1000, some 2000, some 4000, some 8000, some 16000]) ∧
    (wsOnClose true
      (afterClosesFrom initWsState maxReconnectAttempts)).scheduledDelay =
      none ∧
    (wsOnClose true
      (afterClosesFrom initWsState maxReconnectAttempts)).terminalNotice =
      true := by
  have hbase : initWsState.reconnectAttempts = 0 := rfl
  refine ⟨fun k hk => ?_, by decide, ?_, ?_⟩
  · have h := afterClosesFrom_attempts initWsState hbase k (Nat.le_of_lt hk)
    simp [wsOnClose, h, hk, reconnectDelay]
  · have h := afterClosesFrom_attempts initWsState hbase maxReconnectAttempts
      le_rfl
    simp [wsOnClose, h]
  · have h := afterClosesFrom_attempts initWsState hbase maxReconnectAttempts
      le_rfl
    simp [wsOnClose, h]

/-- C2 witness: the delay scheduled before the fifth retry (k = 4) is
16 s. -/
theorem C2_reconnect_backoff_witness :
    (wsOnClose true (afterClosesFrom initWsState 4)).scheduledDelay =
      some 16000 :=
  (C2_reconnect_backoff.1 4 (by decide)).trans (by decide)

/-- C10: the open event resets the reconnect-attempt counter to 0, so a
later unexpected close restarts the backoff schedule at the base 1 s delay
with the full budget of 50 attempts: after any successful open, the close
during the `k`-th consecutive failure (`k < 50`) schedules delay
`reconnectDelay k`. -/
theorem C10_open_resets_attempts :
    ∀ (s : WsState) (k : Nat), k < maxReconnectAttempts →
      (wsOnOpen s).reconnectAttempts = 0 ∧
      (wsOnOpen s).isConnected = true ∧
      (wsOnClose true (wsOnOpen s)).scheduledDelay = some 1000 ∧
      (wsOnClose true (afterClosesFrom (wsOnOpen s) k)).scheduledDelay =
        some (reconnectDelay k) := by
  intro s k hk
  have h0 : (wsOnOpen s).reconnectAttempts = 0 := rfl
  have h := afterClosesFrom_attempts (wsOnOpen s) h0 k (Nat.le_of_lt hk)
  refine ⟨rfl, rfl, ?_, ?_⟩
  · simp [wsOnClose, wsOnOpen, maxReconnectAttempts, reconnectDelay]
  · simp [wsOnClose, h, hk]

/-- C10 witness: after an open at attempt counter 37, the counter is 0 and
the next close schedules the base 1 s delay; 5 failures later the delay is
`reconnectDelay 5`. -/
theorem C10_open_resets_attempts_witness :
    (wsOnOpen ⟨false, 37⟩).reconnectAttempts = 0 ∧
    (wsOnOpen ⟨false, 37⟩).isConnected = true ∧
    (wsOnClose true (wsOnOpen ⟨false, 37⟩)).scheduledDelay = some 1000 ∧
    (wsOnClose true
      (afterClosesFrom (wsOnOpen ⟨false, 37⟩) 5)).scheduledDelay =
      some (reconnectDelay 5) :=
  C10_open_resets_attempts ⟨false, 37⟩ 5 (by decide)

/-- C9: every violation delivered from a `detection_result` message
carries the client's local receive time as its timestamp (one delivery per
violation in the batch), while a standalone `violation` message is
delivered with its service-supplied fields unmodified. -/
theorem C9_timestamp_rewrite :
    ∀ (now : String) (vs : List ViolationData) (snap : Option String)
      (v : ViolationData),
      (∀ d ∈ wsOnMessage now (InMessage.detectionResult vs snap),
        d.timestamp = now) ∧
      (wsOnMessage now (InMessage.detectionResult vs snap)).length =
        vs.length ∧
      wsOnMessage now (InMessage.violation v) = [v] := by
  intro now vs snap v
  refine ⟨fun d hd => ?_, ?_, rfl⟩
  · unfold wsOnMessage at hd
    by_cases hv : vs.length > 0
    · simp only [if_pos hv, List.mem_map] at hd
      obtain ⟨w, -, rfl⟩ := hd
      rfl
    · simp [if_neg hv] at hd
  · unfold wsOnMessage
    by_cases hv : vs.length > 0
    · simp [hv]
    · simp only [if_neg hv, List.length_nil]
      omega

/-- C9 witness: a violation whose service timestamp is `2020-01-01` is
delivered from a `detection_result` with timestamp `NOW` and the result's
snapshot attached, while the same object in a standalone `violation`
message passes through unchanged. -/
theorem C9_timestamp_rewrite_witness :
    ViolationData.timestamp
      { vtype := "phone", severity := "high", message := "msg"
        confidence := none, timestamp := "NOW"
        snapshot_base64 := some "S" } = "NOW" ∧
    wsOnMessage "NOW" (InMessage.violation
      ⟨"phone", "high", "msg", none, "2020-01-01", none⟩) =
      [⟨"phone", "high", "msg", none, "2020-01-01", none⟩] :=
  ⟨(C9_timestamp_rewrite "NOW"
      [⟨"phone", "high", "msg", none, "2020-01-01", none⟩] (some "S")
      ⟨"phone", "high", "msg", none, "2020-01-01", none⟩).1
      { vtype := "phone", severity := "high", message := "msg"
        confidence := none, timestamp := "NOW"
        snapshot_base64 := some "S" } (by decide),
   (C9_timestamp_rewrite "NOW"
      [⟨"phone", "high", "msg", none, "2020-01-01", none⟩] (some "S")
      ⟨"phone", "high", "msg", none, "2020-01-01", none⟩).2.2⟩

/-- Number of `tab_switch` browser-activity messages in a transmission
log. -/
def countTabSwitchMsgs (msgs : List OutMessage) : Nat :=
  (msgs.filter (fun m =>
    match m with
    | OutMessage.browserActivity t _ _ _ _ _ _ => t = "tab_switch"
    | _ => false)).length

/-- C3 counterexample: two focus losses while the Streaming Client is
disconnected leave `tabSwitchCount = 2`, but zero `tab_switch` events are
recorded anywhere — nothing is transmitted and no client-side event list
grows — refuting "two `tab_switch` events exist in the log, regardless of
connection state". -/
theorem C3_counterexample :
    (handleVisibilityChange true false sampleCtx
      (handleVisibilityChange true false sampleCtx initExamState
        ⟨none, []⟩).1
      (handleVisibilityChange true false sampleCtx initExamState
        ⟨none, []⟩).2).1.tabSwitchCount = 2 ∧
    (handleVisibilityChange true false sampleCtx
      (handleVisibilityChange true false sampleCtx initExamState
        ⟨none, []⟩).1
      (handleVisibilityChange true false sampleCtx initExamState
        ⟨none, []⟩).2).2.transmitted = [] ∧
    countTabSwitchMsgs
      (handleVisibilityChange true false sampleCtx
        (handleVisibilityChange true false sampleCtx initExamState
          ⟨none, []⟩).1
        (handleVisibilityChange true false sampleCtx initExamState
          ⟨none, []⟩).2).2.transmitted ≠ 2 := by
  decide

/-- C3 (amended): every focus loss during monitoring increments the
tab-switch counter regardless of the connection state (two focus losses
give `tabSwitchCount + 2`); the `tab_switch` event, however, is only
forwarded to the backend when the client reports connected and the socket
is open, and nothing is appended to any client-side violation log — when
disconnected the event is recorded nowhere. -/
theorem C3_amended_focus_loss :
    ∀ (connected : Bool) (ctx : SessionContext) (s : ExamState)
      (st : ClientState),
      (handleVisibilityChange true connected ctx s st).1.tabSwitchCount =
        s.tabSwitchCount + 1 ∧
      (handleVisibilityChange true connected ctx s st).1.violationCount =
        s.violationCount ∧
      (handleVisibilityChange true connected ctx s st).1.recentWarnings =
        s.recentWarnings ∧
      (connected = false →
        (handleVisibilityChange true connected ctx s st).2 = st) ∧
      (connected = true → st.ws = some ReadyState.opened →
        (handleVisibilityChange true connected ctx s st).2.transmitted =
          st.transmitted ++ [OutMessage.browserActivity "tab_switch"
            "Tab switched - student navigated away from exam page"
            ctx.examId ctx.studentId ctx.studentName ctx.subjectCode
            ctx.subjectName]) ∧
      (handleVisibilityChange true connected ctx
        (handleVisibilityChange true connected ctx s st).1
        (handleVisibilityChange true connected ctx s st).2).1.tabSwitchCount =
        s.tabSwitchCount + 2 := by
  intro connected ctx s st
  refine ⟨rfl, rfl, rfl, fun hc => ?_, fun hc hopen => ?_, rfl⟩
  · simp [handleVisibilityChange, hc]
  · simp [handleVisibilityChange, hc, sendBrowserActivity, wsIsOpen, hopen]

/-- C3 amended witness: one focus loss while connected with an open
socket increments the counter and transmits exactly one `tab_switch`
message; evaluated concretely. -/
theorem C3_amended_focus_loss_witness :
    (handleVisibilityChange true true sampleCtx initExamState
      ⟨some ReadyState.opened, []⟩).1.tabSwitchCount = 0 + 1 ∧
    (handleVisibilityChange true true sampleCtx initExamState
      ⟨some ReadyState.opened, []⟩).2.transmitted =
      [] ++ [OutMessage.browserActivity "tab_switch"
        "Tab switched - student navigated away from exam page"
        sampleCtx.examId sampleCtx.studentId sampleCtx.studentName
        sampleCtx.subjectCode sampleCtx.subjectName] :=
  ⟨(C3_amended_focus_loss true sampleCtx initExamState
      ⟨some ReadyState.opened, []⟩).1,
   (C3_amended_focus_loss true sampleCtx initExamState
      ⟨some ReadyState.opened, []⟩).2.2.2.2.1 rfl rfl⟩

/-- C1 (code divergence, at the failing input): after four remote
violation ingests the aggregated count is 4 while the only client-side
event list (`recentWarnings`) holds 3 entries, and a local tab-switch
ingest increments `tabSwitchCount` to 1 while appending nothing anywhere —
`violationCount`, `recentWarnings` and the transmission log are all
untouched.  The claimed invariant `totalViolations = len(violationLog)`
with every increment paired to an append therefore fails on the code. -/
theorem C1_counter_log_divergence :
    (onViolation ⟨"looking_away", "low", "m4", none, "t4", none⟩
      (onViolation ⟨"no_person", "medium", "m3", none, "t3", none⟩
        (onViolation ⟨"multiple_person", "high", "m2", none, "t2", none⟩
          (onViolation ⟨"phone", "high", "m1", none, "t1", none⟩
            initExamState)))).violationCount = 4 ∧
    (onViolation ⟨"looking_away", "low", "m4", none, "t4", none⟩
      (onViolation ⟨"no_person", "medium", "m3", none, "t3", none⟩
        (onViolation ⟨"multiple_person", "high", "m2", none, "t2", none⟩
          (onViolation ⟨"phone", "high", "m1", none, "t1", none⟩
            initExamState)))).recentWarnings.length = 3 ∧
    (handleVisibilityChange true false sampleCtx initExamState
      ⟨none, []⟩).1.tabSwitchCount = 1 ∧
    (handleVisibilityChange true false sampleCtx initExamState
      ⟨none, []⟩).1.violationCount = 0 ∧
    (handleVisibilityChange true false sampleCtx initExamState
      ⟨none, []⟩).1.recentWarnings = [] ∧
    (handleVisibilityChange true false sampleCtx initExamState
      ⟨none, []⟩).2.transmitted = [] := by
  decide

/-- C8: the CSV export emits the fixed comma-joined header followed by
exactly one quoted data row per violation in input order — the empty log
yields the header row only — every row has exactly one cell per header
column, and fields missing on an event render as their explicit
placeholder strings. -/
theorem C8_csv_export :
    ∀ (fmtTime : String → String) (fmtConf : Nat → String)
      (vs : List CsvViolation) (v : CsvViolation),
      exportToCSV fmtTime fmtConf [] = String.intercalate "," csvHeaders ∧
      (csvLines fmtTime fmtConf vs).length = vs.length + 1 ∧
      (csvLines fmtTime fmtConf vs).head? =
        some (String.intercalate "," csvHeaders) ∧
      ((csvLines fmtTime fmtConf vs).drop 1 =
        vs.map fun w =>
          String.intercalate "," ((csvRowCells fmtTime fmtConf w).map
            csvCell)) ∧
      (csvRowCells fmtTime fmtConf v).length = csvHeaders.length ∧
      (v.details = none → v.image_url = none →
        csvRowCells fmtTime fmtConf v =
          [fmtTime v.timestamp, "ID Not Available", "Name Not Available",
           "Subject Not Available", "Code Not Available",
           replaceUnderscores v.violation_type, v.severity,
           "No details available", "N/A", "No evidence captured", "No"]) := by
  intro fmtTime fmtConf vs v
  refine ⟨rfl, by simp [csvLines], rfl, by simp [csvLines], ?_,
    fun hd hi => ?_⟩
  · simp [csvRowCells, csvHeaders]
  · simp [csvRowCells, hd, hi, jsOr2, jsOrStr, jsTruthy, jsTruthyNum]

/-- C8 witness: an event with no `details` and no `image_url` renders with
all placeholder cells, and the empty log exports as the header row only. -/
theorem C8_csv_export_witness :
    exportToCSV (fun t => t) (fun _ => "0%") [] =
      String.intercalate "," csvHeaders ∧
    csvRowCells (fun t => t) (fun _ => "0%")
      { id := "v1", violation_type := "tab_switch", severity := "medium"
        timestamp := "2024-01-01", image_url := none, details := none } =
      ["2024-01-01", "ID Not Available", "Name Not Available",
       "Subject Not Available", "Code Not Available", "tab switch",
       "medium", "No details available", "N/A", "No evidence captured",
       "No"] :=
  ⟨(C8_csv_export (fun t => t) (fun _ => "0%") []
      { id := "v1", violation_type := "tab_switch", severity := "medium"
        timestamp := "2024-01-01", image_url := none,
        details := none }).1,
   ((C8_csv_export (fun t => t) (fun _ => "0%") []
      { id := "v1", violation_type := "tab_switch", severity := "medium"
        timestamp := "2024-01-01", image_url := none,
        details := none }).2.2.2.2.2 rfl rfl).trans (by decide)⟩

end Proctoring
